import Mathlib

/-!
Shallow embedding of the cocotb test harness of the pdm-pcm-converter
repository (src/tb/cocotb/), and theorems settling the claims about it.

A PDM window is a list of 0/1 bits; we model it as a `List Bool`
(`true` = bit 1).  The harness computes duty cycles with Python float
division; every window the harness actually evaluates has a length that
is a power of two (the configured decimation ratio 16), for which the
float computation is exact, so we embed the arithmetic with exact
rationals (`ℚ`).  Python `int()` truncates toward zero, which `pyInt`
reproduces.  Functions that divide by `len(pdm_data)` raise
`ZeroDivisionError` on an empty list; they are embedded as
`Option`-returning functions that give `none` exactly there.
-/

/-- Python `int()` on an exact rational: truncation toward zero. -/
def pyInt (q : ℚ) : ℤ := if q < 0 then ⌈q⌉ else ⌊q⌋

/-- `sum(pdm_data)` for a 0/1 list: the number of one bits. -/
def onesCount (l : List Bool) : ℕ := l.count true

namespace CocotbConfig

/-! Embedding of src/tb/cocotb/cocotb_config.py. -/

/-- `VygesIPConfig.IP_VERSION` (cocotb_config.py line 27). -/
def VygesIPConfig_IP_VERSION : String := "1.4.0"

/-- The eight design parameters shared by the near-duplicate
configuration classes (data width, decimation ratio, CIC stages, CIC
decimation, half-band decimation, FIR taps, FIFO depth, clock period
in ns). -/
structure DesignParams where
  dataWidth : ℕ
  decimation : ℕ
  cicStages : ℕ
  cicDecimation : ℕ
  halfbandDecimation : ℕ
  firTaps : ℕ
  fifoDepth : ℕ
  clockPeriodNs : ℕ
  deriving DecidableEq, Repr

/-- The `PDM_PCM_CONVERTER_*` design parameters of class `TestConfig`
in cocotb_config.py (lines 65-72). -/
def TestConfig_params : DesignParams :=
  { dataWidth := 16
    decimation := 16
    cicStages := 4
    cicDecimation := 8
    halfbandDecimation := 2
    firTaps := 64
    fifoDepth := 16
    clockPeriodNs := 10 }

/-- Legacy alias property `TestConfig.DATA_WIDTH`
(cocotb_config.py lines 106-108): returns the prefixed value. -/
def TestConfig_DATA_WIDTH : ℕ := TestConfig_params.dataWidth

/-- Legacy alias property `TestConfig.DECIMATION_RATIO` (lines 110-112). -/
def TestConfig_DECIMATION_Ratio : ℕ := TestConfig_params.decimation

/-- Legacy alias property `TestConfig.CIC_STAGES` (lines 114-116). -/
def TestConfig_CIC_STAGES : ℕ := TestConfig_params.cicStages

/-- Legacy alias property `TestConfig.CIC_DECIMATION` (lines 118-120). -/
def TestConfig_CIC_DECIMATION : ℕ := TestConfig_params.cicDecimation

/-- Legacy alias property `TestConfig.HALFBAND_DECIMATION` (lines 122-124). -/
def TestConfig_HALFBAND_DECIMATION : ℕ := TestConfig_params.halfbandDecimation

/-- Legacy alias property `TestConfig.FIR_TAPS` (lines 126-128). -/
def TestConfig_FIR_TAPS : ℕ := TestConfig_params.firTaps

/-- Legacy alias property `TestConfig.FIFO_DEPTH` (lines 130-132). -/
def TestConfig_FIFO_DEPTH : ℕ := TestConfig_params.fifoDepth

/-- Legacy alias property `TestConfig.CLOCK_PERIOD_NS` (lines 134-136). -/
def TestConfig_CLOCK_PERIOD_NS : ℕ := TestConfig_params.clockPeriodNs

/-- One record of `TestScenarios.get_basic_scenarios()`: scenario name,
PDM pattern, expected duty cycle, and the recorded
`expected_pcm_range` pair. -/
structure BasicScenario where
  name : String
  pdm_data : List Bool
  expected_duty_cycle : ℚ
  expected_pcm_lo : ℤ
  expected_pcm_hi : ℤ
  deriving DecidableEq, Repr

/-- A value lies in the recorded `expected_pcm_range` of a scenario. -/
def BasicScenario.inRange (s : BasicScenario) (v : ℤ) : Prop :=
  s.expected_pcm_lo ≤ v ∧ v ≤ s.expected_pcm_hi

instance (s : BasicScenario) (v : ℤ) : Decidable (s.inRange v) :=
  inferInstanceAs (Decidable (_ ∧ _))

/-- The all-zeros record of `get_basic_scenarios`
(cocotb_config.py lines 199-205). -/
def all_zeros_scenario : BasicScenario :=
  { name := "pdm_pcm_converter_all_zeros"
    pdm_data := List.replicate TestConfig_params.decimation false
    expected_duty_cycle := 0
    expected_pcm_lo := -32768
    expected_pcm_hi := -32000 }

/-- The all-ones record of `get_basic_scenarios` (lines 206-212). -/
def all_ones_scenario : BasicScenario :=
  { name := "pdm_pcm_converter_all_ones"
    pdm_data := List.replicate TestConfig_params.decimation true
    expected_duty_cycle := 1
    expected_pcm_lo := 32000
    expected_pcm_hi := 32767 }

/-- The alternating record of `get_basic_scenarios` (lines 213-219):
the pattern is `[i % 2 for i in range(DECIMATION_RATIO)]`. -/
def alternating_scenario : BasicScenario :=
  { name := "pdm_pcm_converter_alternating"
    pdm_data :=
      (List.range TestConfig_params.decimation).map (fun i => decide (i % 2 = 1))
    expected_duty_cycle := 1/2
    expected_pcm_lo := -1000
    expected_pcm_hi := 1000 }

/-- The 25%-ones record of `get_basic_scenarios` (lines 220-227). -/
def quarter_ones_scenario : BasicScenario :=
  { name := "pdm_pcm_converter_quarter_ones"
    pdm_data :=
      (List.range TestConfig_params.decimation).map
        (fun i => decide (i < TestConfig_params.decimation / 4))
    expected_duty_cycle := 1/4
    expected_pcm_lo := -16384
    expected_pcm_hi := -12000 }

/-- The 75%-ones record of `get_basic_scenarios` (lines 228-235). -/
def three_quarter_ones_scenario : BasicScenario :=
  { name := "pdm_pcm_converter_three_quarter_ones"
    pdm_data :=
      (List.range TestConfig_params.decimation).map
        (fun i => decide (i < 3 * TestConfig_params.decimation / 4))
    expected_duty_cycle := 3/4
    expected_pcm_lo := 12000
    expected_pcm_hi := 16384 }

/-- `TestScenarios.get_basic_scenarios()` (cocotb_config.py lines
194-236), with the patterns elaborated at the configured decimation
ratio exactly as the comprehensions build them. -/
def get_basic_scenarios : List BasicScenario :=
  [ all_zeros_scenario
  , all_ones_scenario
  , alternating_scenario
  , quarter_ones_scenario
  , three_quarter_ones_scenario ]

/-- One record of `TestScenarios.get_error_scenarios()`; fields that a
given scenario dictionary does not carry are `none`. -/
structure ErrorScenario where
  name : String
  num_samples : ℕ
  backpressure_cycles : Option ℕ
  expected_overflow : Option Bool
  expected_underflow : Option Bool
  expected_recovery : Option Bool
  deriving DecidableEq, Repr

/-- The backpressure record of `get_error_scenarios`
(cocotb_config.py lines 274-280): 5 samples, overflow not expected. -/
def backpressure_scenario : ErrorScenario :=
  { name := "pdm_pcm_converter_backpressure_test"
    num_samples := 5
    backpressure_cycles := some 50
    expected_overflow := some false
    expected_underflow := none
    expected_recovery := none }

/-- The overflow record of `get_error_scenarios` (lines 281-287):
`FIFO_DEPTH + 2` samples, overflow expected. -/
def overflow_scenario : ErrorScenario :=
  { name := "pdm_pcm_converter_overflow_test"
    num_samples := TestConfig_params.fifoDepth + 2
    backpressure_cycles := some 100
    expected_overflow := some true
    expected_underflow := none
    expected_recovery := none }

/-- The underflow record of `get_error_scenarios` (lines 288-294). -/
def underflow_scenario : ErrorScenario :=
  { name := "pdm_pcm_converter_underflow_test"
    num_samples := 1
    backpressure_cycles := none
    expected_overflow := none
    expected_underflow := some true
    expected_recovery := none }

/-- The disable-during-operation record of `get_error_scenarios`
(lines 295-301). -/
def disable_scenario : ErrorScenario :=
  { name := "pdm_pcm_converter_disable_during_operation"
    num_samples := 1
    backpressure_cycles := none
    expected_overflow := none
    expected_underflow := none
    expected_recovery := some true }

/-- `TestScenarios.get_error_scenarios()` (cocotb_config.py lines
269-302). -/
def get_error_scenarios : List ErrorScenario :=
  [backpressure_scenario, overflow_scenario, underflow_scenario,
    disable_scenario]

/-- The parameter ranges recorded in
`ValidationConfig.PDM_PCM_CONVERTER_FUNCTIONAL_VALIDATION`
(cocotb_config.py lines 461-467), as (low, high) pairs. -/
structure FunctionalValidation where
  data_width_range : ℤ × ℤ
  decimation_range : ℤ × ℤ
  fifo_depth_range : ℤ × ℤ
  cic_stages_range : ℤ × ℤ
  fir_taps_range : ℤ × ℤ
  deriving DecidableEq, Repr

/-- `ValidationConfig.PDM_PCM_CONVERTER_FUNCTIONAL_VALIDATION`. -/
def functional_validation : FunctionalValidation :=
  { data_width_range := (8, 32)
    decimation_range := (2, 48)
    fifo_depth_range := (8, 64)
    cic_stages_range := (1, 8)
    fir_taps_range := (16, 128) }

/-- The configuration values `validate_configuration` reads
(design parameters plus the two performance figures it checks). -/
structure ValidatedConfig where
  dataWidth : ℤ
  decimation : ℤ
  cicStages : ℤ
  fifoDepth : ℤ
  firTaps : ℤ
  passbandRippleDb : ℚ
  stopbandAttenuationDb : ℚ
  deriving DecidableEq, Repr

/-- The values of the fixed `TestConfig()` object that
`validate_configuration` actually validates (cocotb_config.py lines
65-78). -/
def defaultValidatedConfig : ValidatedConfig :=
  { dataWidth := 16
    decimation := 16
    cicStages := 4
    fifoDepth := 16
    firTaps := 64
    passbandRippleDb := 1/10
    stopbandAttenuationDb := 98 }

/-- `validate_configuration()` (cocotb_config.py lines 505-544),
parameterised by the configuration it reads and by whether the listed
RTL files exist on disk (its first check).  It checks, in order: RTL
file existence, `8 <= DATA_WIDTH <= 32`, `2 <= DECIMATION_RATIO <= 48`,
`PASSBAND_RIPPLE_DB <= 1.0`, `STOPBAND_ATTENUATION_DB >= 60`; nothing
else decides the verdict. -/
def validate_configuration (rtlFilesExist : Bool) (c : ValidatedConfig) : Bool :=
  if ¬ rtlFilesExist then false
  else if ¬ (8 ≤ c.dataWidth ∧ c.dataWidth ≤ 32) then false
  else if ¬ (2 ≤ c.decimation ∧ c.decimation ≤ 48) then false
  else if c.passbandRippleDb > 1 then false
  else if c.stopbandAttenuationDb < 60 then false
  else true

end CocotbConfig

namespace CoreTb

/-! Embedding of src/tb/cocotb/test_pdm_pcm_decimator_core.py. -/

/-- The `TestConfig` class of test_pdm_pcm_decimator_core.py
(lines 21-30). -/
def TestConfig_params : CocotbConfig.DesignParams :=
  { dataWidth := 16
    decimation := 16
    cicStages := 4
    cicDecimation := 8
    halfbandDecimation := 2
    firTaps := 64
    fifoDepth := 16
    clockPeriodNs := 10 }

/-- `PCMChecker.max_value = (1 << (data_width - 1)) - 1`
(test_pdm_pcm_decimator_core.py line 70). -/
def PCMChecker_max_value (dataWidth : ℕ) : ℤ := 2 ^ (dataWidth - 1) - 1

/-- `PCMChecker.min_value = -(1 << (data_width - 1))` (line 71). -/
def PCMChecker_min_value (dataWidth : ℕ) : ℤ := -(2 ^ (dataWidth - 1))

/-- `PCMChecker.check_constant_input(pdm_data, expected_duty_cycle)`
(test_pdm_pcm_decimator_core.py lines 73-83).  It counts the one bits,
forms `expected_pcm = int((duty_cycle - 0.5) * 2 * max_value)`, and
returns `abs(expected_pcm) <= max_value / 100`.  The
`expected_duty_cycle` argument is never used, and no sampled device
output enters the computation.  Dividing by `len(pdm_data)` raises on
an empty window, hence `none` there. -/
def check_constant_input (dataWidth : ℕ) (expected_duty_cycle : ℚ)
    (pdm_data : List Bool) : Option Bool :=
  if pdm_data.length = 0 then none
  else
    let maxValue : ℤ := PCMChecker_max_value dataWidth
    let duty : ℚ := (onesCount pdm_data : ℚ) / (pdm_data.length : ℚ)
    let expected_pcm : ℤ := pyInt ((duty - 1/2) * 2 * (maxValue : ℚ))
    some (decide ((|expected_pcm| : ℚ) ≤ (maxValue : ℚ) / 100))

/-- Modelled from the spec: the response-checker behaviour the spec
describes for `check_constant_input` — sample the parallel output of
the device and compare it against the bit-counting expected value
within the 1% tolerance.  This follows the wording of the spec and is
written for comparison with `check_constant_input` above; the source
function takes no sampled output at all. -/
def check_constant_input_asSpecified (dataWidth : ℕ)
    (pdm_data : List Bool) (sampled : ℤ) : Option Bool :=
  if pdm_data.length = 0 then none
  else
    let maxValue : ℤ := PCMChecker_max_value dataWidth
    let duty : ℚ := (onesCount pdm_data : ℚ) / (pdm_data.length : ℚ)
    let expected_pcm : ℤ := pyInt ((duty - 1/2) * 2 * (maxValue : ℚ))
    some (decide ((|sampled - expected_pcm| : ℚ) ≤ (maxValue : ℚ) / 100))

/-- The PCM value `test_all_zeros_pattern` asserts the device must
produce for the all-zero window (line 166):
`-(1 << (DATA_WIDTH - 1))`. -/
def test_all_zeros_expected_pcm : ℤ :=
  -(2 ^ (TestConfig_params.dataWidth - 1))

/-- The PCM value `test_all_ones_pattern` asserts for the all-one
window (line 209): `(1 << (DATA_WIDTH - 1)) - 1`. -/
def test_all_ones_expected_pcm : ℤ :=
  2 ^ (TestConfig_params.dataWidth - 1) - 1

/-- The tolerance of `test_alternating_pattern` (line 253):
`1 << (DATA_WIDTH - 3)`. -/
def test_alternating_tolerance : ℤ :=
  2 ^ (TestConfig_params.dataWidth - 3)

/-- `test_alternating_pattern` passes a sampled PCM value iff its
magnitude is within the tolerance (line 254). -/
def test_alternating_ok (pcm : ℤ) : Prop :=
  |pcm| ≤ test_alternating_tolerance

/-- `test_random_pattern` passes a sampled PCM value iff it lies in
the representable range (lines 298-300). -/
def test_random_ok (pcm : ℤ) : Prop :=
  PCMChecker_min_value TestConfig_params.dataWidth ≤ pcm ∧
    pcm ≤ PCMChecker_max_value TestConfig_params.dataWidth

/-- `test_backpressure` sends this many complete PCM samples with
`pcm_ready_i` held low (line 320). -/
def test_backpressure_num_samples : ℕ := 3

/-- The overflow value `test_backpressure` asserts after its samples
(line 336): overflow must be low. -/
def test_backpressure_asserted_overflow : Bool := false

/-- `test_overflow_condition` sends this many samples with
`pcm_ready_i` held low (line 367): `FIFO_DEPTH + 2`. -/
def test_overflow_num_samples : ℕ := TestConfig_params.fifoDepth + 2

/-- The overflow value `test_overflow_condition` asserts afterwards
(line 383): overflow must be high. -/
def test_overflow_asserted_overflow : Bool := true

end CoreTb

namespace VygesTb

/-! Embedding of src/tb/cocotb/test_pdm_pcm_decimator_vyges.py. -/

/-- `VygesPdmPcmDecimatorTester.vyges_calculate_expected_pcm(pdm_data)`
(test_pdm_pcm_decimator_vyges.py lines 252-261): counts the one bits,
forms the duty cycle, and returns
`int((duty_cycle - 0.5) * (2 ** (DATA_WIDTH - 1)))`.  Dividing by
`len(pdm_data)` raises on an empty window, hence `none` there. -/
def vyges_calculate_expected_pcm (dataWidth : ℕ) (pdm_data : List Bool) :
    Option ℤ :=
  if pdm_data.length = 0 then none
  else
    let duty : ℚ := (onesCount pdm_data : ℚ) / (pdm_data.length : ℚ)
    some (pyInt ((duty - 1/2) * 2 ^ (dataWidth - 1)))

/-- The verification tolerance the vyges harness allows between the
sampled and the expected PCM value
(test_pdm_pcm_decimator_vyges.py line 424): `2 ** (DATA_WIDTH - 8)`. -/
def vyges_verification_tolerance (dataWidth : ℕ) : ℤ := 2 ^ (dataWidth - 8)

end VygesTb

namespace VygesTestCfg

/-! Embedding of src/tb/cocotb/vyges_test_config.py. -/

/-- `VygesTestPatterns.IP_VERSION` (vyges_test_config.py line 26). -/
def VygesTestPatterns_IP_VERSION : String := "1.4.1"

/-- One record of the data_patterns entry of
`VygesTestPatterns.PDM_PCM_CONVERTER_TEST_PATTERNS`:
pattern name, PDM data, expected duty cycle and the recorded
`expected_pcm_range` pair. -/
structure DataPattern where
  name : String
  data : List Bool
  expected_duty_cycle : ℚ
  expected_pcm_lo : ℤ
  expected_pcm_hi : ℤ
  deriving DecidableEq, Repr

/-- The `data_patterns` entry of
`VygesTestPatterns.PDM_PCM_CONVERTER_TEST_PATTERNS`
(vyges_test_config.py lines 95-144), with the list comprehensions
elaborated over their literal bounds. -/
def data_patterns : List DataPattern :=
  [ { name := "vyges_all_zeros_pattern"
      data := List.replicate 16 false
      expected_duty_cycle := 0
      expected_pcm_lo := -32768
      expected_pcm_hi := -32000 }
  , { name := "vyges_all_ones_pattern"
      data := List.replicate 16 true
      expected_duty_cycle := 1
      expected_pcm_lo := 32000
      expected_pcm_hi := 32767 }
  , { name := "vyges_alternating_pattern"
      data := (List.range 16).map (fun i => decide (i % 2 = 1))
      expected_duty_cycle := 1/2
      expected_pcm_lo := -1000
      expected_pcm_hi := 1000 }
  , { name := "vyges_quarter_ones_pattern"
      data := (List.range 16).map (fun i => decide (i < 4))
      expected_duty_cycle := 1/4
      expected_pcm_lo := -16384
      expected_pcm_hi := -12000 }
  , { name := "vyges_three_quarter_ones_pattern"
      data := (List.range 16).map (fun i => decide (i < 12))
      expected_duty_cycle := 3/4
      expected_pcm_lo := 12000
      expected_pcm_hi := 16384 } ]

/-- One record of the `corner_case_patterns` entry of
`VygesTestPatterns.PDM_PCM_CONVERTER_TEST_PATTERNS`; the
disable-during-operation pattern carries no `data` key, hence
`Option`. -/
structure CornerCasePattern where
  name : String
  data : Option (List Bool)
  expected_result : String
  deriving DecidableEq, Repr

/-- The empty-data corner-case pattern (vyges_test_config.py lines
219-226). -/
def empty_data_pattern : CornerCasePattern :=
  { name := "vyges_empty_data"
    data := some []
    expected_result := "handles_empty_data_gracefully" }

/-- The single-bit corner-case pattern (lines 227-234). -/
def single_bit_pattern : CornerCasePattern :=
  { name := "vyges_single_bit_data"
    data := some [true]
    expected_result := "handles_single_bit_correctly" }

/-- The high-frequency alternating corner-case pattern (lines
235-242). -/
def high_frequency_pattern : CornerCasePattern :=
  { name := "vyges_high_frequency_pattern"
    data := some ((List.range 160).map (fun i => decide (i % 2 = 1)))
    expected_result := "filters_high_frequency_correctly" }

/-- The disable-during-operation corner-case pattern (lines
243-250). -/
def disable_pattern : CornerCasePattern :=
  { name := "vyges_disable_during_operation"
    data := none
    expected_result := "recovers_after_disable" }

/-- The `corner_case_patterns` entry of
`VygesTestPatterns.PDM_PCM_CONVERTER_TEST_PATTERNS`
(vyges_test_config.py lines 216-252). -/
def corner_case_patterns : List CornerCasePattern :=
  [empty_data_pattern, single_bit_pattern, high_frequency_pattern,
    disable_pattern]

end VygesTestCfg

/-! ### Arithmetic helper lemmas -/

theorem pyInt_intCast (m : ℤ) : pyInt (m : ℚ) = m := by
  unfold pyInt
  split_ifs with h
  · exact Int.ceil_intCast m
  · exact Int.floor_intCast m

theorem pyInt_mono {q r : ℚ} (h : q ≤ r) : pyInt q ≤ pyInt r := by
  unfold pyInt
  by_cases h1 : q < 0
  · by_cases h2 : r < 0
    · rw [if_pos h1, if_pos h2]
      exact Int.ceil_mono h
    · rw [if_pos h1, if_neg h2]
      have hq : ⌈q⌉ ≤ 0 := Int.ceil_le.2 (by exact_mod_cast h1.le)
      have hr : 0 ≤ ⌊r⌋ := Int.le_floor.2 (by exact_mod_cast not_lt.1 h2)
      omega
  · have h2 : ¬ r < 0 := fun hr => h1 (lt_of_le_of_lt h hr)
    rw [if_neg h1, if_neg h2]
    exact Int.floor_mono h

theorem pyInt_ratDiv (m : ℤ) (n : ℕ) (hn : n ≠ 0) :
    pyInt ((m : ℚ) / (n : ℚ)) = m.tdiv n := by
  have hnq : (0 : ℚ) < (n : ℚ) := by exact_mod_cast Nat.pos_of_ne_zero hn
  rcases le_or_lt 0 m with hm | hm
  · have hq : ¬ ((m : ℚ) / (n : ℚ) < 0) :=
      not_lt.2 (div_nonneg (by exact_mod_cast hm) hnq.le)
    unfold pyInt
    rw [if_neg hq, Rat.floor_intCast_div_natCast]
    exact (Int.tdiv_eq_ediv hm (by exact_mod_cast Nat.zero_le n)).symm
  · have hq : (m : ℚ) / (n : ℚ) < 0 :=
      div_neg_of_neg_of_pos (by exact_mod_cast hm) hnq
    unfold pyInt
    rw [if_pos hq]
    have hceil : ⌈(m : ℚ) / (n : ℚ)⌉ = -⌊((-m : ℤ) : ℚ) / (n : ℚ)⌋ := by
      have h1 : (((-m : ℤ) : ℚ) / (n : ℚ)) = -((m : ℚ) / (n : ℚ)) := by
        push_cast
        ring
      rw [h1, Int.floor_neg, neg_neg]
    rw [hceil, Rat.floor_intCast_div_natCast]
    have htd : ((-m).tdiv n) = (-m) / (n : ℤ) :=
      Int.tdiv_eq_ediv (by omega) (by exact_mod_cast Nat.zero_le n)
    rw [← htd, Int.neg_tdiv, neg_neg]

theorem vcep_closed (w : ℕ) (l : List Bool) (h : l.length ≠ 0) :
    VygesTb.vyges_calculate_expected_pcm w l =
      some (((2 * (onesCount l : ℤ) - (l.length : ℤ)) * 2 ^ (w - 1)).tdiv
        (2 * (l.length : ℤ))) := by
  unfold VygesTb.vyges_calculate_expected_pcm
  rw [if_neg h]
  dsimp only
  have hl : (l.length : ℚ) ≠ 0 := by exact_mod_cast h
  have hmul : ((onesCount l : ℚ) / (l.length : ℚ) - 1/2) * 2 ^ (w - 1)
      = (((2 * (onesCount l : ℤ) - (l.length : ℤ)) * 2 ^ (w - 1) : ℤ) : ℚ)
        / ((2 * l.length : ℕ) : ℚ) := by
    push_cast
    field_simp
    ring
  rw [hmul, pyInt_ratDiv _ _ (by omega)]
  norm_cast

theorem cci_closed (w : ℕ) (d : ℚ) (l : List Bool) (h : l.length ≠ 0) :
    CoreTb.check_constant_input w d l =
      some (decide (100 * |((2 * (onesCount l : ℤ) - (l.length : ℤ)) *
          CoreTb.PCMChecker_max_value w).tdiv (l.length : ℤ)| ≤
        CoreTb.PCMChecker_max_value w)) := by
  unfold CoreTb.check_constant_input
  rw [if_neg h]
  dsimp only
  have hl : (l.length : ℚ) ≠ 0 := by exact_mod_cast h
  have hmul : ((onesCount l : ℚ) / (l.length : ℚ) - 1/2) * 2 *
        ((CoreTb.PCMChecker_max_value w : ℤ) : ℚ)
      = (((2 * (onesCount l : ℤ) - (l.length : ℤ)) *
          CoreTb.PCMChecker_max_value w : ℤ) : ℚ) / ((l.length : ℕ) : ℚ) := by
    push_cast
    field_simp
    ring
  rw [hmul, pyInt_ratDiv _ _ h]
  congr 1
  rw [decide_eq_decide]
  rw [le_div_iff₀ (by norm_num : (0 : ℚ) < 100), mul_comm]
  exact_mod_cast Iff.rfl

theorem cci_spec_closed (w : ℕ) (l : List Bool) (s : ℤ) (h : l.length ≠ 0) :
    CoreTb.check_constant_input_asSpecified w l s =
      some (decide (100 * |s - ((2 * (onesCount l : ℤ) - (l.length : ℤ)) *
          CoreTb.PCMChecker_max_value w).tdiv (l.length : ℤ)| ≤
        CoreTb.PCMChecker_max_value w)) := by
  unfold CoreTb.check_constant_input_asSpecified
  rw [if_neg h]
  dsimp only
  have hl : (l.length : ℚ) ≠ 0 := by exact_mod_cast h
  have hmul : ((onesCount l : ℚ) / (l.length : ℚ) - 1/2) * 2 *
        ((CoreTb.PCMChecker_max_value w : ℤ) : ℚ)
      = (((2 * (onesCount l : ℤ) - (l.length : ℤ)) *
          CoreTb.PCMChecker_max_value w : ℤ) : ℚ) / ((l.length : ℕ) : ℚ) := by
    push_cast
    field_simp
    ring
  rw [hmul, pyInt_ratDiv _ _ h]
  congr 1
  rw [decide_eq_decide]
  rw [le_div_iff₀ (by norm_num : (0 : ℚ) < 100), mul_comm]
  exact_mod_cast Iff.rfl

theorem abs_tdiv_of_nonneg (x n : ℤ) (hn : 0 ≤ n) : |x.tdiv n| = |x|.tdiv n := by
  rcases le_or_lt 0 x with hx | hx
  · rw [abs_of_nonneg hx, abs_of_nonneg (Int.tdiv_nonneg hx hn)]
  · have hneg := Int.neg_tdiv x n
    have h2 : 0 ≤ (-x).tdiv n := Int.tdiv_nonneg (by omega) hn
    have h3 : x.tdiv n ≤ 0 := by omega
    rw [abs_of_nonpos h3, abs_of_neg hx]
    omega

/-- Claim C1 (code bug): the claim says the expected-output computation
`vyges_calculate_expected_pcm` on the all-zero window of length 16
equals the most negative representable value -32768, the value
`test_all_zeros_pattern` asserts and the low end of the recorded
all-zeros `expected_pcm_range`.  The code disagrees with itself: the
function returns -16384 (the formula scales by `2 ** (DATA_WIDTH - 1)`
instead of the full output span), while the test asserts -32768 and
only -32768 lies in the recorded range. -/
theorem vyges_expected_pcm_all_zeros_divergence :
    VygesTb.vyges_calculate_expected_pcm 16 (List.replicate 16 false) = some (-16384) ∧
    CoreTb.test_all_zeros_expected_pcm = -32768 ∧
    CocotbConfig.all_zeros_scenario ∈ CocotbConfig.get_basic_scenarios ∧
    CocotbConfig.all_zeros_scenario.pdm_data = List.replicate 16 false ∧
    CocotbConfig.all_zeros_scenario.inRange CoreTb.test_all_zeros_expected_pcm ∧
    ¬ CocotbConfig.all_zeros_scenario.inRange (-16384) ∧
    (-16384 : ℤ) ≠ CoreTb.test_all_zeros_expected_pcm := by
  refine ⟨?_, by decide, List.mem_cons_self _ _, by decide, by decide, by decide, by decide⟩
  rw [vcep_closed 16 _ (by decide)]
  decide

/-- Claim C2 (code bug): the claim says `vyges_calculate_expected_pcm`
on the all-one window of length 16 equals 32767 within the
verification tolerance `2 ** (DATA_WIDTH - 8) = 256`, the value
`test_all_ones_pattern` asserts and a value inside the recorded
all-ones `expected_pcm_range`.  The function actually returns 16384,
which differs from 32767 by far more than the tolerance and lies
outside the recorded range (32000, 32767). -/
theorem vyges_expected_pcm_all_ones_divergence :
    VygesTb.vyges_calculate_expected_pcm 16 (List.replicate 16 true) = some 16384 ∧
    CoreTb.test_all_ones_expected_pcm = 32767 ∧
    CocotbConfig.all_ones_scenario ∈ CocotbConfig.get_basic_scenarios ∧
    CocotbConfig.all_ones_scenario.pdm_data = List.replicate 16 true ∧
    CocotbConfig.all_ones_scenario.inRange CoreTb.test_all_ones_expected_pcm ∧
    ¬ CocotbConfig.all_ones_scenario.inRange 16384 ∧
    ¬ (|16384 - CoreTb.test_all_ones_expected_pcm| ≤ VygesTb.vyges_verification_tolerance 16) := by
  refine ⟨?_, by decide, List.mem_cons_of_mem _ (List.mem_cons_self _ _), by decide,
    by decide, by decide, by decide⟩
  rw [vcep_closed 16 _ (by decide)]
  decide

/-- Claim C4 (confirmed): for the alternating 0/1 window of length
equal to the decimation ratio, `vyges_calculate_expected_pcm` returns
exactly 0, which lies inside the recorded alternating
`expected_pcm_range` (-1000, 1000) and within the
`test_alternating_pattern` tolerance `2 ** (DATA_WIDTH - 3)` of
zero. -/
theorem alternating_expected_pcm_near_zero :
    CocotbConfig.alternating_scenario ∈ CocotbConfig.get_basic_scenarios ∧
    CocotbConfig.alternating_scenario.pdm_data =
      (List.range CocotbConfig.TestConfig_params.decimation).map (fun i => decide (i % 2 = 1)) ∧
    CocotbConfig.alternating_scenario.pdm_data.length =
      CocotbConfig.TestConfig_params.decimation ∧
    VygesTb.vyges_calculate_expected_pcm 16 CocotbConfig.alternating_scenario.pdm_data = some 0 ∧
    CocotbConfig.alternating_scenario.expected_pcm_lo = -1000 ∧
    CocotbConfig.alternating_scenario.expected_pcm_hi = 1000 ∧
    CocotbConfig.alternating_scenario.inRange 0 ∧
    CoreTb.test_alternating_tolerance = 2 ^ 13 ∧
    CoreTb.test_alternating_ok 0 := by
  refine ⟨List.mem_cons_of_mem _ (List.mem_cons_of_mem _ (List.mem_cons_self _ _)),
    by decide, by decide, ?_, by decide, by decide, by decide, by decide, ?_⟩
  · rw [vcep_closed 16 _ (by decide)]
    decide
  · unfold CoreTb.test_alternating_ok CoreTb.test_alternating_tolerance
    decide

/-- Claim C8, counterexample: the configuration variants are not
semantically identical — `VygesIPConfig` records IP version 1.4.0
while `VygesTestPatterns` records 1.4.1. -/
theorem ip_version_mismatch :
    CocotbConfig.VygesIPConfig_IP_VERSION ≠ VygesTestCfg.VygesTestPatterns_IP_VERSION := by
  decide

/-- Claim C8 (amended): the near-duplicate configuration variants
agree except for the recorded IP version: every legacy alias of
`TestConfig` returns its prefixed value, the `TestConfig` classes of
test_pdm_pcm_decimator_core.py and cocotb_config.py define the same
eight design-parameter values, and the data patterns of
`VygesTestPatterns` equal the basic scenarios of `TestScenarios` in
pattern data, expected duty cycle and expected PCM range; but
`VygesIPConfig` records IP version 1.4.0 while `VygesTestPatterns`
records 1.4.1. -/
theorem config_variants_agree_except_version :
    CocotbConfig.TestConfig_DATA_WIDTH = CocotbConfig.TestConfig_params.dataWidth ∧
    CocotbConfig.TestConfig_DECIMATION_Ratio = CocotbConfig.TestConfig_params.decimation ∧
    CocotbConfig.TestConfig_CIC_STAGES = CocotbConfig.TestConfig_params.cicStages ∧
    CocotbConfig.TestConfig_CIC_DECIMATION = CocotbConfig.TestConfig_params.cicDecimation ∧
    CocotbConfig.TestConfig_HALFBAND_DECIMATION = CocotbConfig.TestConfig_params.halfbandDecimation ∧
    CocotbConfig.TestConfig_FIR_TAPS = CocotbConfig.TestConfig_params.firTaps ∧
    CocotbConfig.TestConfig_FIFO_DEPTH = CocotbConfig.TestConfig_params.fifoDepth ∧
    CocotbConfig.TestConfig_CLOCK_PERIOD_NS = CocotbConfig.TestConfig_params.clockPeriodNs ∧
    CoreTb.TestConfig_params = CocotbConfig.TestConfig_params ∧
    CocotbConfig.get_basic_scenarios.map
        (fun s => (s.pdm_data, s.expected_duty_cycle, s.expected_pcm_lo, s.expected_pcm_hi))
      = VygesTestCfg.data_patterns.map
        (fun p => (p.data, p.expected_duty_cycle, p.expected_pcm_lo, p.expected_pcm_hi)) ∧
    CocotbConfig.VygesIPConfig_IP_VERSION = "1.4.0" ∧
    VygesTestCfg.VygesTestPatterns_IP_VERSION = "1.4.1" := by
  exact ⟨rfl, rfl, rfl, rfl, rfl, rfl, rfl, rfl, by decide, rfl, rfl, rfl⟩

/-- Claim C9 (confirmed): the expected-output computations are defined
only for non-empty windows.  On the empty list both
`vyges_calculate_expected_pcm` and `check_constant_input` divide by
`len(pdm_data) = 0` and fail (embedded as `none`); on every non-empty
list both return normally; yet the corner-case table contains an
empty-data pattern whose expected result is graceful handling. -/
theorem expected_pcm_empty_window_fails :
    VygesTb.vyges_calculate_expected_pcm 16 [] = none ∧
    (∀ d : ℚ, CoreTb.check_constant_input 16 d [] = none) ∧
    (∀ l : List Bool, l ≠ [] →
      (∃ v, VygesTb.vyges_calculate_expected_pcm 16 l = some v) ∧
      (∀ d : ℚ, ∃ b, CoreTb.check_constant_input 16 d l = some b)) ∧
    VygesTestCfg.empty_data_pattern ∈ VygesTestCfg.corner_case_patterns ∧
    VygesTestCfg.empty_data_pattern.data = some [] ∧
    VygesTestCfg.empty_data_pattern.expected_result = "handles_empty_data_gracefully" := by
  refine ⟨rfl, fun d => rfl, ?_, List.mem_cons_self _ _, rfl, rfl⟩
  intro l hl
  have h : l.length ≠ 0 := by simpa [List.length_eq_zero] using hl
  exact ⟨⟨_, vcep_closed 16 l h⟩, fun d => ⟨_, cci_closed 16 d l h⟩⟩

/-- Witness for claim C9 at the concrete window `[true]`. -/
theorem expected_pcm_empty_window_fails_witness :
    (([true] : List Bool) ≠ []) ∧
    (∃ v, VygesTb.vyges_calculate_expected_pcm 16 [true] = some v) ∧
    (∃ b, CoreTb.check_constant_input 16 1 [true] = some b) := by
  have h := (expected_pcm_empty_window_fails.2.2.1) [true] (by decide)
  exact ⟨by decide, h.1, h.2 1⟩

/-- Claim C6 (confirmed): every overflow expectation the harness
records agrees with the rule that overflow is required exactly when
more than `FIFO_DEPTH` output words are backlogged: the error-scenario
table marks `expected_overflow = False` for the 5-sample backpressure
scenario and `True` for the `FIFO_DEPTH + 2`-sample overflow scenario,
and the tests assert overflow low after 3 backlogged samples and high
after `FIFO_DEPTH + 2`. -/
theorem overflow_requirements_match_fifo_depth :
    (∀ s ∈ CocotbConfig.get_error_scenarios, ∀ b,
      s.expected_overflow = some b →
        b = decide (CocotbConfig.TestConfig_params.fifoDepth < s.num_samples)) ∧
    CocotbConfig.backpressure_scenario ∈ CocotbConfig.get_error_scenarios ∧
    CocotbConfig.backpressure_scenario.num_samples = 5 ∧
    CocotbConfig.backpressure_scenario.expected_overflow = some false ∧
    CocotbConfig.backpressure_scenario.num_samples ≤
      CocotbConfig.TestConfig_params.fifoDepth ∧
    CocotbConfig.overflow_scenario ∈ CocotbConfig.get_error_scenarios ∧
    CocotbConfig.overflow_scenario.num_samples =
      CocotbConfig.TestConfig_params.fifoDepth + 2 ∧
    CocotbConfig.overflow_scenario.expected_overflow = some true ∧
    CoreTb.test_backpressure_num_samples = 3 ∧
    CoreTb.test_backpressure_num_samples ≤ CoreTb.TestConfig_params.fifoDepth ∧
    CoreTb.test_backpressure_asserted_overflow = false ∧
    CoreTb.test_overflow_num_samples = CoreTb.TestConfig_params.fifoDepth + 2 ∧
    CoreTb.test_overflow_asserted_overflow = true ∧
    CoreTb.test_backpressure_asserted_overflow =
      decide (CoreTb.TestConfig_params.fifoDepth < CoreTb.test_backpressure_num_samples) ∧
    CoreTb.test_overflow_asserted_overflow =
      decide (CoreTb.TestConfig_params.fifoDepth < CoreTb.test_overflow_num_samples) := by
  decide

/-- Witness for claim C6 at the concrete overflow scenario. -/
theorem overflow_requirements_match_fifo_depth_witness :
    (CocotbConfig.overflow_scenario.expected_overflow = some true) ∧
    (true = decide (CocotbConfig.TestConfig_params.fifoDepth <
      CocotbConfig.overflow_scenario.num_samples)) := by
  obtain ⟨hall, -, -, -, -, hmem, -, hov, -⟩ := overflow_requirements_match_fifo_depth
  exact ⟨hov, hall _ hmem _ hov⟩

/-- Claim C7, counterexample: `validate_configuration` accepts a
configuration whose FIFO depth (100) lies outside the documented
range (8, 64) recorded in the functional-validation table, so it does
not return False whenever a documented parameter range is violated. -/
theorem validate_configuration_ignores_fifo_depth :
    CocotbConfig.validate_configuration true
      { CocotbConfig.defaultValidatedConfig with fifoDepth := 100 } = true ∧
    ¬ (CocotbConfig.functional_validation.fifo_depth_range.1 ≤ (100 : ℤ) ∧
        (100 : ℤ) ≤ CocotbConfig.functional_validation.fifo_depth_range.2) := by
  constructor
  · norm_num [CocotbConfig.validate_configuration, CocotbConfig.defaultValidatedConfig]
  · decide

/-- Claim C7 (amended): `validate_configuration` checks only data
width (8-32) and decimation ratio (2-48) among the documented
parameter ranges — besides RTL file existence, passband ripple at most
1.0 dB and stopband attenuation at least 60 dB; FIFO depth, CIC stages
and FIR taps are never checked, although the functional-validation
table records ranges (8, 64), (1, 8) and (16, 128) for them. -/
theorem validate_configuration_characterization :
    (∀ (rtlFilesExist : Bool) (c : CocotbConfig.ValidatedConfig),
      CocotbConfig.validate_configuration rtlFilesExist c = true ↔
        (rtlFilesExist = true ∧ 8 ≤ c.dataWidth ∧ c.dataWidth ≤ 32 ∧
          2 ≤ c.decimation ∧ c.decimation ≤ 48 ∧
          c.passbandRippleDb ≤ 1 ∧ 60 ≤ c.stopbandAttenuationDb)) ∧
    CocotbConfig.functional_validation.data_width_range = (8, 32) ∧
    CocotbConfig.functional_validation.decimation_range = (2, 48) ∧
    CocotbConfig.functional_validation.fifo_depth_range = (8, 64) ∧
    CocotbConfig.functional_validation.cic_stages_range = (1, 8) ∧
    CocotbConfig.functional_validation.fir_taps_range = (16, 128) := by
  refine ⟨?_, by decide, by decide, by decide, by decide, by decide⟩
  intro rtl c
  unfold CocotbConfig.validate_configuration
  split_ifs with h1 h2 h3 h4 h5 <;> simp_all

/-- Claim C3 (confirmed): for every non-empty 0/1 window, the
expected PCM value computed by `vyges_calculate_expected_pcm` lies
within the representable range [-2 ** 15, 2 ** 15 - 1] = [-32768, 32767]
that `PCMChecker` derives from the data width and that
`test_random_pattern` asserts on every output. -/
theorem vyges_expected_pcm_in_range :
    ∀ l : List Bool, l ≠ [] →
      ∃ v, VygesTb.vyges_calculate_expected_pcm 16 l = some v ∧
        CoreTb.PCMChecker_min_value 16 ≤ v ∧ v ≤ CoreTb.PCMChecker_max_value 16 ∧
        CoreTb.test_random_ok v := by
  intro l hl
  have h : l.length ≠ 0 := by simpa [List.length_eq_zero] using hl
  have hn : (0 : ℚ) < (l.length : ℚ) := by exact_mod_cast Nat.pos_of_ne_zero h
  have hk : (onesCount l : ℚ) ≤ (l.length : ℚ) := by
    exact_mod_cast List.count_le_length (a := true) (l := l)
  have hduty0 : (0 : ℚ) ≤ (onesCount l : ℚ) / (l.length : ℚ) := by positivity
  have hduty1 : (onesCount l : ℚ) / (l.length : ℚ) ≤ 1 := by
    rw [div_le_one hn]
    exact hk
  have hql : ((-16384 : ℤ) : ℚ) ≤
      ((onesCount l : ℚ) / (l.length : ℚ) - 1/2) * 2 ^ (16 - 1) := by
    push_cast
    nlinarith
  have hqu : ((onesCount l : ℚ) / (l.length : ℚ) - 1/2) * 2 ^ (16 - 1) ≤
      ((16384 : ℤ) : ℚ) := by
    push_cast
    nlinarith
  have hlow := pyInt_mono hql
  have hup := pyInt_mono hqu
  rw [pyInt_intCast] at hlow hup
  norm_num at hlow hup
  refine ⟨pyInt (((onesCount l : ℚ) / (l.length : ℚ) - 1/2) * 2 ^ (16 - 1)),
    ?_, ?_, ?_, ?_, ?_⟩
  · unfold VygesTb.vyges_calculate_expected_pcm
    rw [if_neg h]
  · norm_num [CoreTb.PCMChecker_min_value]
    omega
  · norm_num [CoreTb.PCMChecker_max_value]
    omega
  · norm_num [CoreTb.PCMChecker_min_value, CoreTb.TestConfig_params]
    omega
  · norm_num [CoreTb.PCMChecker_max_value, CoreTb.TestConfig_params]
    omega

/-- Witness for claim C3 at the concrete window `[true]`. -/
theorem vyges_expected_pcm_in_range_witness :
    (([true] : List Bool) ≠ []) ∧
    ∃ v, VygesTb.vyges_calculate_expected_pcm 16 [true] = some v ∧
      CoreTb.PCMChecker_min_value 16 ≤ v ∧ v ≤ CoreTb.PCMChecker_max_value 16 ∧
      CoreTb.test_random_ok v :=
  ⟨by decide, vyges_expected_pcm_in_range [true] (by decide)⟩

/-- Claim C5, counterexample: `check_constant_input` does not compare
the sampled device output with the expected value.  For the all-one
window the comparison the spec describes would accept a sampled output
equal to the expected value 32767 (distance 0 is within the 1%
tolerance), but the source function returns False for that window
regardless of any device output, which it never receives. -/
theorem check_constant_input_ignores_output :
    CoreTb.check_constant_input 16 1 (List.replicate 16 true) = some false ∧
    CoreTb.check_constant_input_asSpecified 16 (List.replicate 16 true) 32767 = some true := by
  constructor
  · rw [cci_closed 16 1 _ (by decide)]
    decide
  · rw [cci_spec_closed 16 _ 32767 (by decide)]
    decide

/-- Claim C5 (amended): the verdict of `check_constant_input` depends
only on the PDM window, not on any sampled device output: for a window
of length n with k one bits it returns True exactly when
|2k - n| * 32767 < 328 * n, i.e. when the bit-counting expected value
`int((duty_cycle - 0.5) * 2 * max_value)` lies within the 1% tolerance
`max_value / 100` of zero. -/
theorem check_constant_input_characterization :
    ∀ (d : ℚ) (l : List Bool), l ≠ [] →
      (CoreTb.check_constant_input 16 d l = some true ↔
        |2 * (onesCount l : ℤ) - (l.length : ℤ)| * 32767 < 328 * (l.length : ℤ)) := by
  intro d l hl
  have h : l.length ≠ 0 := by simpa [List.length_eq_zero] using hl
  have hn : (0 : ℤ) < (l.length : ℤ) := by exact_mod_cast Nat.pos_of_ne_zero h
  have hM : CoreTb.PCMChecker_max_value 16 = 32767 := by decide
  rw [cci_closed 16 d l h, hM]
  simp only [Option.some.injEq, decide_eq_true_eq]
  set a := 2 * (onesCount l : ℤ) - (l.length : ℤ) with ha
  have habs : |(a * 32767).tdiv (l.length : ℤ)| = (|a| * 32767).tdiv (l.length : ℤ) := by
    rw [abs_tdiv_of_nonneg _ _ hn.le, abs_mul]
    norm_num
  rw [habs]
  have hediv : (|a| * 32767).tdiv (l.length : ℤ) = (|a| * 32767) / (l.length : ℤ) :=
    Int.tdiv_eq_ediv (by positivity) hn.le
  rw [hediv]
  have hiff := Int.ediv_lt_iff_lt_mul (a := |a| * 32767) (b := 328) hn
  constructor
  · intro h100
    exact hiff.mp (by omega)
  · intro hlt
    have h328 := hiff.mpr hlt
    omega

/-- Witness for claim C5 (amended) at the window `[true, false]`. -/
theorem check_constant_input_characterization_witness :
    (([true, false] : List Bool) ≠ []) ∧
    (CoreTb.check_constant_input 16 1 [true, false] = some true ↔
      |2 * (onesCount [true, false] : ℤ) - (([true, false] : List Bool).length : ℤ)| * 32767 <
        328 * (([true, false] : List Bool).length : ℤ)) :=
  ⟨by decide, check_constant_input_characterization 1 [true, false] (by decide)⟩

/-- Claim C10 (confirmed): for non-empty windows
`vyges_calculate_expected_pcm` depends only on the number of one bits:
it is invariant under every permutation of the window, monotonically
nondecreasing in the ones count at fixed window length, and returns
exactly 0 for an even-length window containing exactly half ones. -/
theorem vyges_expected_pcm_algebraic :
    (∀ l l' : List Bool, l.Perm l' →
      VygesTb.vyges_calculate_expected_pcm 16 l = VygesTb.vyges_calculate_expected_pcm 16 l') ∧
    (∀ l l' : List Bool, l ≠ [] → l.length = l'.length → onesCount l ≤ onesCount l' →
      ∃ v v', VygesTb.vyges_calculate_expected_pcm 16 l = some v ∧
        VygesTb.vyges_calculate_expected_pcm 16 l' = some v' ∧ v ≤ v') ∧
    (∀ l : List Bool, l ≠ [] → 2 * onesCount l = l.length →
      VygesTb.vyges_calculate_expected_pcm 16 l = some 0) := by
  refine ⟨?_, ?_, ?_⟩
  · intro l l' hp
    have h1 : l.length = l'.length := hp.length_eq
    have h2 : onesCount l = onesCount l' := hp.count_eq true
    unfold VygesTb.vyges_calculate_expected_pcm
    rw [h1, h2]
  · intro l l' hl hlen hk
    have h : l.length ≠ 0 := by simpa [List.length_eq_zero] using hl
    have h' : l'.length ≠ 0 := by rw [← hlen]; exact h
    have hd : (onesCount l : ℚ) / (l.length : ℚ) ≤ (onesCount l' : ℚ) / (l'.length : ℚ) := by
      rw [← hlen]
      have hkq : (onesCount l : ℚ) ≤ (onesCount l' : ℚ) := by exact_mod_cast hk
      have hnq : (0 : ℚ) < (l.length : ℚ) := by exact_mod_cast Nat.pos_of_ne_zero h
      exact div_le_div_of_nonneg_right hkq hnq.le
    have hq : ((onesCount l : ℚ) / (l.length : ℚ) - 1/2) * 2 ^ (16 - 1) ≤
        ((onesCount l' : ℚ) / (l'.length : ℚ) - 1/2) * 2 ^ (16 - 1) := by
      apply mul_le_mul_of_nonneg_right _ (by positivity)
      linarith
    refine ⟨pyInt (((onesCount l : ℚ) / (l.length : ℚ) - 1/2) * 2 ^ (16 - 1)),
      pyInt (((onesCount l' : ℚ) / (l'.length : ℚ) - 1/2) * 2 ^ (16 - 1)),
      ?_, ?_, pyInt_mono hq⟩
    · unfold VygesTb.vyges_calculate_expected_pcm
      rw [if_neg h]
    · unfold VygesTb.vyges_calculate_expected_pcm
      rw [if_neg h']
  · intro l hl h2k
    have h : l.length ≠ 0 := by simpa [List.length_eq_zero] using hl
    have hn : ((l.length : ℚ)) ≠ 0 := by exact_mod_cast h
    have hd : (onesCount l : ℚ) / (l.length : ℚ) = 1/2 := by
      have hc : ((2 * onesCount l : ℕ) : ℚ) = ((l.length : ℕ) : ℚ) := by
        exact_mod_cast congrArg (fun n : ℕ => (n : ℚ)) h2k
      push_cast at hc
      field_simp
      linarith
    unfold VygesTb.vyges_calculate_expected_pcm
    rw [if_neg h]
    rw [hd]
    norm_num [pyInt]

/-- Witness for claim C10 at concrete two-bit windows. -/
theorem vyges_expected_pcm_algebraic_witness :
    (VygesTb.vyges_calculate_expected_pcm 16 [true, false] =
      VygesTb.vyges_calculate_expected_pcm 16 [false, true]) ∧
    (∃ v v', VygesTb.vyges_calculate_expected_pcm 16 [false, false] = some v ∧
      VygesTb.vyges_calculate_expected_pcm 16 [false, true] = some v' ∧ v ≤ v') ∧
    VygesTb.vyges_calculate_expected_pcm 16 [true, false] = some 0 := by
  obtain ⟨hperm, hmono, hhalf⟩ := vyges_expected_pcm_algebraic
  exact ⟨hperm [true, false] [false, true] (by decide),
    hmono [false, false] [false, true] (by decide) (by decide) (by decide),
    hhalf [true, false] (by decide) (by decide)⟩
